import Mathlib

/-!
Verification development for the LoggingTools log-ingestion pipeline
(`src/LoggingTools/LogProcessor.py`).

Shallow embedding conventions:
* A physical text line is a `List Char` (`Line`); Python's `str.strip()` is
  `pyStrip`, restricted to ASCII whitespace, which covers every input the
  claims mention.
* The line-format and timestamp-format catalogs are configuration loaded from
  YAML files that are not part of `src/`; a regular-expression entry is
  therefore embedded as an abstract match function `Line → Option Captures`
  (for line formats, returning the named capture groups) or
  `Line → Option Instant` (for `datetime.strptime` with a fixed pattern and
  for the `dateutil` fallback parser).  Concrete demo entries
  (`demoLineFormat`, `demoTimestampFormat`) instantiate the catalog for the
  spec's scenarios.
* A normalized timestamp (`datetime`) is abstracted as `Instant := Nat`.
* Logging side effects that the spec talks about (warnings) are threaded
  explicitly as a `List LogEvent`; debug/info messages are not modelled.
* `insert_into_database` only counts inserts in the source; the records it
  receives are modelled as the `inserted` list (the sink handoffs), so
  `insert_num` is `inserted.length`.
* Exceptions (I/O errors while reading, a throwing sink) are modelled with
  `Except` in the `_x` variants of the processing functions; the pure
  functions are the same code with the never-throwing counter sink.
-/

namespace LoggingTools

abbrev Line := List Char

/-- Abstract normalized instant standing for a parsed `datetime` value. -/
abbrev Instant := Nat

/-- ASCII whitespace, as stripped by Python's `str.strip()` on the inputs the
claims are about. -/
def isSpace (c : Char) : Bool :=
  c == ' ' || c == '\t' || c == '\n' || c == '\r' || c == '\x0b' || c == '\x0c'

/-- Python `line.strip()`: remove leading and trailing whitespace. -/
def pyStrip (l : Line) : Line :=
  ((l.dropWhile isSpace).reverse.dropWhile isSpace).reverse

/-- Python `line.startswith(" ")`. -/
def startsWithSpace : Line → Bool
  | [] => false
  | c :: _ => c == ' '

/-- The named capture groups produced by a line-format regular expression
(`match.groupdict()`), restricted to the fields the data model names:
at least `message`; optionally `timestamp` and `level`.  `none` stands for a
group that is absent from the pattern or did not participate in the match. -/
structure Captures where
  message : Line
  timestamp : Option Line
  level : Option Line
  deriving DecidableEq

/-- One entry of the line-format catalog (`log_formats.yml`): a named regex,
embedded as its match-with-captures function (`re.match(fmt["pattern"], line)`
followed by `groupdict()`). -/
structure LineFormat where
  re_match : Line → Option Captures

/-- One entry of the timestamp-format catalog (`timestamp_formats.yml`):
`datetime.strptime(timestamp, fmt.get("pattern"))`, returning `none` where the
Python call raises `ValueError`. -/
structure TimestampFormat where
  strptime : Line → Option Instant

/-- The configuration loaded once by `initialize`, together with the
`dateutil.parser.parse` fallback (`none` = the call raises). -/
structure Catalog where
  log_formats : List LineFormat
  timestamp_formats : List TimestampFormat
  dateutil_parse : Line → Option Instant

/-- Warnings emitted by the processor (the logger calls the claims mention). -/
inductive LogEvent where
  /-- `Timestamp parsing failed: {timestamp} ({e})` -/
  | warnTimestamp (ts : Line)
  /-- `Unparseable structured line: {line}` -/
  | warnUnparseable (line : Line)
  /-- `Continuation line without a preceding buffer: {line}` -/
  | warnOrphan (line : Line)
  deriving DecidableEq

/-- The parsed data of one log line after timestamp normalization
(`parse_log_line`'s result).  In the source this is the groupdict; a failed
or skipped timestamp resolution leaves the field falsy (`None` or the raw
falsy capture), collapsed here to `none`. -/
structure ParsedData where
  message : Line
  timestamp : Option Instant
  level : Option Line
  deriving DecidableEq

/-- A buffered/flushed record: the parsed data plus the `raw_line` field that
`process_log_file` attaches. -/
structure ParsedRecord extends ParsedData where
  raw_line : Line
  deriving DecidableEq

/-- First success of `f` over a list, in order — the shape of every
`for ...: try/return` loop in the source. -/
def firstSome {α β : Type} (f : α → Option β) : List α → Option β
  | [] => none
  | a :: l =>
    match f a with
    | some b => some b
    | none => firstSome f l

/-- `LogProcessor.parse_timestamp`: try each configured pattern in order,
first success wins; otherwise fall back to `dateutil`; if that also fails,
log a warning and return `None`. -/
def parse_timestamp (c : Catalog) (ts : Line) : Option Instant × List LogEvent :=
  match firstSome (fun f => f.strptime ts) c.timestamp_formats with
  | some t => (some t, [])
  | none =>
    match c.dateutil_parse ts with
    | some t => (some t, [])
    | none => (none, [LogEvent.warnTimestamp ts])

/-- `LogProcessor.is_continuation`: strip the line; empty lines are not
continuations; a line matching any configured pattern is not a continuation;
otherwise a line starting with `" "` is a continuation. -/
def is_continuation (fmts : List LineFormat) (line : Line) : Bool :=
  let l := pyStrip line
  if l.isEmpty then false
  else if fmts.any (fun f => (f.re_match l).isSome) then false
  else if startsWithSpace l then true
  else false

/-- `LogProcessor.parse_log_line`: first matching format wins; if the
groupdict has a truthy `timestamp` capture it is normalized via
`parse_timestamp` (whose warning, if any, is returned alongside). -/
def parse_log_line (c : Catalog) (line : Line) : Option ParsedData × List LogEvent :=
  match firstSome (fun f => f.re_match line) c.log_formats with
  | some caps =>
    match caps.timestamp with
    | some ts =>
      if ts.isEmpty then
        (some ⟨caps.message, none, caps.level⟩, [])
      else
        match parse_timestamp c ts with
        | (t, w) => (some ⟨caps.message, t, caps.level⟩, w)
    | none => (some ⟨caps.message, none, caps.level⟩, [])
  | none => (none, [])

/-- The assembler state inside `process_log_file`: the buffered record (the
`buffer` local), the records handed to the sink so far, and the warnings
logged so far. -/
structure ProcState where
  buffer : Option ParsedRecord
  inserted : List ParsedRecord
  events : List LogEvent
  deriving DecidableEq

/-- `if buffer: insert_into_database(buffer); buffer = None`. -/
def flush (st : ProcState) : ProcState :=
  match st.buffer with
  | none => st
  | some b => { st with buffer := none, inserted := st.inserted ++ [b] }

/-- One iteration of the `for line in log_file` loop in
`LogProcessor.process_log_file`. -/
def process_line (c : Catalog) (st : ProcState) (rawline : Line) : ProcState :=
  let line := pyStrip rawline
  if !is_continuation c.log_formats line then
    let st1 := flush st
    match parse_log_line c line with
    | (some pd, w) =>
      { st1 with buffer := some ⟨pd, line⟩, events := st1.events ++ w }
    | (none, w) =>
      { st1 with events := st1.events ++ w ++ [LogEvent.warnUnparseable line] }
  else
    match st.buffer with
    | some b => { st with buffer := some { b with message := b.message ++ (' ' :: line) } }
    | none => { st with events := st.events ++ [LogEvent.warnOrphan line] }

/-- The initial assembler state (`buffer = None`, nothing inserted). -/
def initState : ProcState := ⟨none, [], []⟩

/-- `LogProcessor.process_log_file` on the lines of one file (the pure part,
with the source's never-throwing counter sink): the line loop followed by the
final `if buffer: insert_into_database(buffer)`. -/
def process_log_file (c : Catalog) (lines : List Line) : ProcState :=
  flush (lines.foldl (process_line c) initState)

/-! Exception-aware model of one file's processing (`try ... except` in
`process_log_file`): reading the file may fail, and the sink collaborator may
throw; either aborts that file's processing with the exception value. -/

/-- A sink that never throws: the source's counter-only
`insert_into_database`. -/
def okSink : ParsedRecord → Except Line Unit := fun _ => Except.ok ()

/-- `flush` with a possibly-throwing sink. -/
def flush_x (sink : ParsedRecord → Except Line Unit) (st : ProcState) :
    Except Line ProcState :=
  match st.buffer with
  | none => Except.ok st
  | some b =>
    match sink b with
    | Except.ok _ => Except.ok { st with buffer := none, inserted := st.inserted ++ [b] }
    | Except.error e => Except.error e

/-- One loop iteration with a possibly-throwing sink. -/
def process_line_x (c : Catalog) (sink : ParsedRecord → Except Line Unit)
    (st : ProcState) (rawline : Line) : Except Line ProcState :=
  let line := pyStrip rawline
  if !is_continuation c.log_formats line then
    match flush_x sink st with
    | Except.error e => Except.error e
    | Except.ok st1 =>
      match parse_log_line c line with
      | (some pd, w) =>
        Except.ok { st1 with buffer := some ⟨pd, line⟩, events := st1.events ++ w }
      | (none, w) =>
        Except.ok { st1 with events := st1.events ++ w ++ [LogEvent.warnUnparseable line] }
  else
    Except.ok (match st.buffer with
      | some b => { st with buffer := some { b with message := b.message ++ (' ' :: line) } }
      | none => { st with events := st.events ++ [LogEvent.warnOrphan line] })

/-- The line loop with a possibly-throwing sink. -/
def process_lines_x (c : Catalog) (sink : ParsedRecord → Except Line Unit) :
    ProcState → List Line → Except Line ProcState
  | st, [] => Except.ok st
  | st, l :: ls =>
    match process_line_x c sink st l with
    | Except.error e => Except.error e
    | Except.ok st' => process_lines_x c sink st' ls

/-- The body of `process_log_file`'s `try` block: open/read the file (which
may raise), run the line loop, flush the final buffer. -/
def process_log_file_x (c : Catalog) (sink : ParsedRecord → Except Line Unit)
    (read_result : Except Line (List Line)) : Except Line ProcState :=
  match read_result with
  | Except.error e => Except.error e
  | Except.ok lines =>
    match process_lines_x c sink initState lines with
    | Except.error e => Except.error e
    | Except.ok st => flush_x sink st

/-- A file to process: its name and the result of reading its lines (`error`
= opening/reading raises an I/O error). -/
structure FileInput where
  name : Line
  read_result : Except Line (List Line)

/-- The terminal directory a file is moved to (`shutil.move` target). -/
inductive Dest where
  | processedDir
  | errorDir
  deriving DecidableEq

/-- The externally observable per-file outcome: the terminal directory and,
on failure, the `logger.error` entry carrying the file name and the cause. -/
structure FileOutcome where
  dest : Dest
  errorLog : Option (Line × Line)
  deriving DecidableEq

/-- `process_log_file`'s failure boundary: on success move the file to
`processed`; on any exception log the error with the file name and cause and
move the file to `errors`.  Total — the exception never propagates. -/
def process_one_file (c : Catalog) (sink : ParsedRecord → Except Line Unit)
    (f : FileInput) : FileOutcome :=
  match process_log_file_x c sink f.read_result with
  | Except.ok _ => ⟨Dest.processedDir, none⟩
  | Except.error e => ⟨Dest.errorDir, some (f.name, e)⟩

/-- One directory entry of the `unprocessed` snapshot taken when
`process_all_logs` starts iterating: the file input plus `is_file()`. -/
structure Entry extends FileInput where
  is_reg : Bool

/-- `LogProcessor.process_all_logs`'s main pass: iterate the snapshot of
`unprocessed`, delegating every regular file to the per-file boundary. -/
def process_all_logs (c : Catalog) (sink : ParsedRecord → Except Line Unit)
    (snapshot : List Entry) : List (Line × FileOutcome) :=
  (snapshot.filter (fun e => e.is_reg)).map
    (fun e => (e.name, process_one_file c sink e.toFileInput))

/-! Demo catalog entries, instantiating the configuration for the spec's
scenarios (the YAML catalogs themselves are not under `src/`). -/

/-- Shape matcher: `'d'` in the shape means "a digit", any other character is
literal; the line must extend the shape. -/
def matchShape : List Char → Line → Bool
  | [], _ => true
  | _ :: _, [] => false
  | s :: ss, c :: cs => (if s == 'd' then c.isDigit else c == s) && matchShape ss cs

/-- Decimal value of the digits of a line (used to give the demo `strptime`
a deterministic, injective-enough result). -/
def digitsVal (l : Line) : Nat :=
  l.foldl (fun n c => if c.isDigit then n * 10 + (c.toNat - 48) else n) 0

/-- Modelled from the spec: the line-format configuration
(`LoggingTools/config/log_formats.yml`) is not under `src/`; this is the
standard entry implied by the spec's scenarios, the regex
`(?P<timestamp>dddd-dd-dd dd:dd:dd) (?P<level>\w+) (?P<message>.*)` anchored
at the start (`d` = digit). -/
def demoLineFormat : LineFormat :=
  ⟨fun l =>
    if matchShape ("dddd-dd-dd dd:dd:dd ".data) l then
      some ⟨((l.drop 20).dropWhile (fun c => !(c == ' '))).drop 1,
            some (l.take 19),
            some ((l.drop 20).takeWhile (fun c => !(c == ' ')))⟩
    else none⟩

/-- Modelled from the spec: the timestamp-format configuration
(`timestamp_formats.yml`) is not under `src/`; this is
`strptime` with pattern `%Y-%m-%d %H:%M:%S`, shape-checked. -/
def demoTimestampFormat : TimestampFormat :=
  ⟨fun l =>
    if matchShape ("dddd-dd-dd dd:dd:dd".data) l && l.length == 19 then
      some (digitsVal l)
    else none⟩

/-- A demo catalog for concrete evaluations: one line format, one timestamp
format, a fallback parser that always fails. -/
def demoCatalog : Catalog :=
  ⟨[demoLineFormat], [demoTimestampFormat], fun _ => none⟩

/-- A degenerate but legal catalog entry: the regex `(?P<message>.*)`, which
matches every line including the empty one. -/
def anyLineFormat : LineFormat :=
  ⟨fun l => some ⟨l, none, none⟩⟩

/-! General lemmas. -/

theorem dropWhile_head_not {α : Type} (p : α → Bool) :
    ∀ (l : List α) (c : α) (t : List α), l.dropWhile p = c :: t → p c = false := by
  intro l
  induction l with
  | nil => intro c t h; simp [List.dropWhile] at h
  | cons a l ih =>
    intro c t h
    by_cases hp : p a
    · rw [List.dropWhile_cons_of_pos hp] at h
      exact ih c t h
    · rw [List.dropWhile_cons_of_neg hp] at h
      cases h
      exact Bool.of_not_eq_true hp

theorem dropWhile_is_sfx {α : Type} (p : α → Bool) :
    ∀ l : List α, ∃ u, u ++ l.dropWhile p = l := by
  intro l
  induction l with
  | nil => exact ⟨[], rfl⟩
  | cons a l ih =>
    by_cases hp : p a
    · obtain ⟨u, hu⟩ := ih
      exact ⟨a :: u, by rw [List.dropWhile_cons_of_pos hp]; simpa using hu⟩
    · exact ⟨[], by rw [List.dropWhile_cons_of_neg hp]; rfl⟩

theorem rstrip_head {α : Type} (p : α → Bool) (m : List α) (c : α) (t : List α)
    (h : (m.reverse.dropWhile p).reverse = c :: t) : ∃ r, m = c :: r := by
  obtain ⟨u, hu⟩ := dropWhile_is_sfx p m.reverse
  have hm : m = (m.reverse.dropWhile p).reverse ++ u.reverse := by
    have := congrArg List.reverse hu
    simpa using this.symm
  exact ⟨t ++ u.reverse, by rw [hm, h]; simp⟩

theorem pyStrip_head_not_space (l : Line) (c : Char) (t : Line)
    (h : pyStrip l = c :: t) : isSpace c = false := by
  unfold pyStrip at h
  obtain ⟨r, hr⟩ := rstrip_head isSpace (l.dropWhile isSpace) c t h
  exact dropWhile_head_not isSpace l c r hr

theorem startsWithSpace_pyStrip (l : Line) : startsWithSpace (pyStrip l) = false := by
  cases h : pyStrip l with
  | nil => rfl
  | cons c t =>
    have hc := pyStrip_head_not_space l c t h
    have : (c == ' ') = false := by
      cases hcc : c == ' ' with
      | false => rfl
      | true =>
        rw [show c = ' ' from eq_of_beq hcc] at hc
        simp [isSpace] at hc
    simp [startsWithSpace, this]

/-- The central defect: `is_continuation` strips its argument before testing
`startswith(" ")`, so no line is ever classified as a continuation. -/
theorem is_continuation_eq_false (fmts : List LineFormat) (line : Line) :
    is_continuation fmts line = false := by
  unfold is_continuation
  have h := startsWithSpace_pyStrip line
  by_cases he : (pyStrip line).isEmpty
  · simp [he]
  · simp [he, h]

theorem flush_events (st : ProcState) : (flush st).events = st.events := by
  cases h : st.buffer <;> simp [flush, h]

theorem flush_inserted (st : ProcState) :
    (flush st).inserted = st.inserted ++ st.buffer.toList := by
  cases h : st.buffer <;> simp [flush, h]

theorem flush_buffer (st : ProcState) : (flush st).buffer = none := by
  cases h : st.buffer <;> simp [flush, h]

theorem firstSome_eq_none {α β : Type} (f : α → Option β) (l : List α)
    (h : ∀ x ∈ l, f x = none) : firstSome f l = none := by
  induction l with
  | nil => rfl
  | cons a l ih =>
    have ha := h a (List.mem_cons_self a l)
    simp only [firstSome, ha]
    exact ih (fun x hx => h x (List.mem_cons_of_mem a hx))

theorem firstSome_first_wins {α β : Type} (f : α → Option β) (pre : List α) (x : α)
    (post : List α) (t : β) (hpre : ∀ y ∈ pre, f y = none) (hx : f x = some t) :
    firstSome f (pre ++ x :: post) = some t := by
  induction pre with
  | nil => simp [firstSome, hx]
  | cons a pre ih =>
    have ha := hpre a (by simp)
    simp only [List.cons_append, firstSome, ha]
    exact ih (fun y hy => hpre y (by simp [hy]))

/-- Whenever some configured format matches, `parse_log_line` returns a
parsed record (never `None`), whatever the timestamp resolution does. -/
theorem parse_log_line_matched (c : Catalog) (l : Line) (caps : Captures)
    (h : firstSome (fun f => f.re_match l) c.log_formats = some caps) :
    ∃ pd w, parse_log_line c l = (some pd, w) := by
  cases hts : caps.timestamp with
  | none =>
    refine ⟨⟨caps.message, none, caps.level⟩, [], ?_⟩
    simp [parse_log_line, h, hts]
  | some ts =>
    cases he : ts.isEmpty with
    | true =>
      refine ⟨⟨caps.message, none, caps.level⟩, [], ?_⟩
      simp [parse_log_line, h, hts, he]
    | false =>
      refine ⟨⟨caps.message, (parse_timestamp c ts).1, caps.level⟩,
        (parse_timestamp c ts).2, ?_⟩
      simp [parse_log_line, h, hts, he]

/-- Because `is_continuation` is constantly false, every line takes the
"new record" path: flush, then parse. -/
theorem process_line_eq (c : Catalog) (st : ProcState) (rawline : Line) :
    process_line c st rawline =
      (match parse_log_line c (pyStrip rawline) with
       | (some pd, w) =>
         { flush st with buffer := some ⟨pd, pyStrip rawline⟩,
                         events := (flush st).events ++ w }
       | (none, w) =>
         { flush st with
             events := (flush st).events ++ w
                         ++ [LogEvent.warnUnparseable (pyStrip rawline)] }) := by
  unfold process_line
  simp [is_continuation_eq_false]

/-! Claim theorems. -/

/-- C1: the claim states that a line with no format match is classified as a
continuation if and only if it begins with leading whitespace.  In the code,
`is_continuation` strips the line before the `startswith(" ")` test, so it
returns false for every possible input; in particular the indented, unmatched
line `"    at module X"` is not classified as a continuation, refuting the
"if" direction of the claimed equivalence. -/
theorem C1_is_continuation_never_true :
    (∀ fmts line, is_continuation fmts line = false) ∧
    (startsWithSpace ("    at module X".data) = true ∧
      is_continuation [] ("    at module X".data) = false) :=
  ⟨fun fmts line => is_continuation_eq_false fmts line, by decide, by decide⟩

/-- C2 counterexample: with the demo catalog, the matching line puts the
assembler in the Buffering state; the following unparseable line
`"garbage text"` then flushes the buffered record to the sink and resets the
buffer to Idle, contradicting "the buffered record (its contents and the
Buffering state itself) is left unchanged; in particular no flush to the sink
occurs on an Unparseable line". -/
theorem C2_counterexample :
    (let st1 := process_line demoCatalog initState
        ("2024-06-15 10:00:01 ERROR Failed".data)
     let st2 := process_line demoCatalog st1 ("garbage text".data)
     st1.buffer.isSome = true ∧ st1.inserted = [] ∧
       st2.buffer = none ∧ st2.inserted.length = 1 ∧
       st2.events = [LogEvent.warnUnparseable ("garbage text".data)]) := by
  decide

/-- C2 amended: on an unparseable line processed while Buffering, a warning
referencing the (stripped) raw line is emitted, but the buffered record is
first flushed to the sink and the assembler state becomes Idle. -/
theorem C2_unparseable_flushes_then_warns (c : Catalog) (st : ProcState)
    (b : ParsedRecord) (line : Line) (hb : st.buffer = some b)
    (hm : firstSome (fun f => f.re_match (pyStrip line)) c.log_formats = none) :
    process_line c st line =
      { buffer := none, inserted := st.inserted ++ [b],
        events := st.events ++ [LogEvent.warnUnparseable (pyStrip line)] } := by
  rw [process_line_eq]
  simp [parse_log_line, hm, flush, hb]

/-- C2 amended theorem, witnessed at a concrete Buffering state and line. -/
theorem C2_unparseable_flushes_then_warns_witness :
    process_line demoCatalog
        ⟨some ⟨⟨"Failed".data, none, none⟩, "raw".data⟩, [], []⟩
        ("garbage text".data) =
      { buffer := none,
        inserted := [⟨⟨"Failed".data, none, none⟩, "raw".data⟩],
        events := [LogEvent.warnUnparseable ("garbage text".data)] } :=
  C2_unparseable_flushes_then_warns demoCatalog
    ⟨some ⟨⟨"Failed".data, none, none⟩, "raw".data⟩, [], []⟩
    ⟨⟨"Failed".data, none, none⟩, "raw".data⟩
    ("garbage text".data) rfl (by decide)

/-- C3: evaluating the code on the spec's continuation scenario.  The claim
(and the spec) expect one record with message
`"Failed at module X at module Y"`; the code instead emits one record whose
message is just `"Failed"`, plus two unparseable-line warnings, because the
indented lines are stripped and never classified as continuations. -/
theorem C3_continuation_scenario_eval :
    (let st := process_log_file demoCatalog
        ["2024-06-15 10:00:01 ERROR Failed".data,
         "    at module X".data, "    at module Y".data]
     st.inserted =
        [⟨⟨"Failed".data, some 20240615100001, some ("ERROR".data)⟩,
          "2024-06-15 10:00:01 ERROR Failed".data⟩] ∧
       st.events = [LogEvent.warnUnparseable ("at module X".data),
         LogEvent.warnUnparseable ("at module Y".data)] ∧
       st.inserted.map (fun r => r.message) ≠
         ["Failed at module X at module Y".data]) := by
  decide

/-- C4 counterexample: a whitespace-only line is not dropped silently.  With
the demo catalog and the assembler Buffering, the line `"   "` flushes the
buffered record to the sink and logs an `Unparseable structured line` warning
(with the empty stripped line), contradicting "produces no warning, and
leaves the assembler's buffer state unchanged". -/
theorem C4_counterexample :
    (let st1 := process_line demoCatalog initState
        ("2024-06-15 10:00:01 ERROR Failed".data)
     let st2 := process_line demoCatalog st1 ("   ".data)
     st1.buffer.isSome = true ∧ st1.events = [] ∧
       st2.buffer = none ∧ st2.inserted.length = 1 ∧
       st2.events = [LogEvent.warnUnparseable []]) := by
  decide

/-- C4 amended: a whitespace-only line is never classified as a continuation
and (when no configured pattern matches the empty string) creates no record of
its own, but it is not silent: any buffered record is flushed to the sink and
an `Unparseable structured line` warning carrying the empty stripped line is
logged. -/
theorem C4_empty_line_flushes_and_warns (c : Catalog) (st : ProcState)
    (line : Line) (hw : pyStrip line = [])
    (hm : firstSome (fun f => f.re_match []) c.log_formats = none) :
    is_continuation c.log_formats line = false ∧
    process_line c st line =
      { buffer := none, inserted := st.inserted ++ st.buffer.toList,
        events := st.events ++ [LogEvent.warnUnparseable []] } := by
  refine ⟨is_continuation_eq_false _ _, ?_⟩
  rw [process_line_eq, hw]
  simp [parse_log_line, hm, flush_inserted, flush_events, flush_buffer]

/-- C4 amended theorem, witnessed at a concrete Buffering state and the
whitespace-only line `"   "`. -/
theorem C4_empty_line_flushes_and_warns_witness :
    is_continuation demoCatalog.log_formats ("   ".data) = false ∧
    process_line demoCatalog
        ⟨some ⟨⟨"Failed".data, none, none⟩, "raw".data⟩, [], []⟩ ("   ".data) =
      { buffer := none,
        inserted := [⟨⟨"Failed".data, none, none⟩, "raw".data⟩],
        events := [LogEvent.warnUnparseable []] } :=
  C4_empty_line_flushes_and_warns demoCatalog
    ⟨some ⟨⟨"Failed".data, none, none⟩, "raw".data⟩, [], []⟩
    ("   ".data) (by decide) (by decide)

/-- C5: per-file fault isolation.  Any error raised while processing a file
(I/O error from reading, or an exception from the sink) makes the failure
boundary move the file to the error directory and log the error with the file
name and cause; the exception never propagates (`process_one_file` is total)
and the pipeline continues with the next file; a file processed without error
is moved to the processed directory. -/
theorem C5_file_fault_isolation (c : Catalog)
    (sink : ParsedRecord → Except Line Unit) (f : FileInput) :
    (∀ e, process_log_file_x c sink f.read_result = Except.error e →
        process_one_file c sink f = ⟨Dest.errorDir, some (f.name, e)⟩) ∧
    (∀ st, process_log_file_x c sink f.read_result = Except.ok st →
        process_one_file c sink f = ⟨Dest.processedDir, none⟩) ∧
    (∀ (e : Entry) (rest : List Entry),
        process_all_logs c sink (e :: rest) =
          (if e.is_reg then [(e.name, process_one_file c sink e.toFileInput)]
           else []) ++ process_all_logs c sink rest) := by
  refine ⟨?_, ?_, ?_⟩
  · intro e he
    simp [process_one_file, he]
  · intro st hst
    simp [process_one_file, hst]
  · intro e rest
    by_cases hr : e.is_reg <;> simp [process_all_logs, hr]

/-- C5, witnessed: an unreadable file is moved to the error directory with the
error logged under its name and cause. -/
theorem C5_file_fault_isolation_witness :
    process_one_file demoCatalog okSink
        ⟨"bad.log".data, Except.error ("Permission denied".data)⟩ =
      ⟨Dest.errorDir, some ("bad.log".data, "Permission denied".data)⟩ :=
  (C5_file_fault_isolation demoCatalog okSink
      ⟨"bad.log".data, Except.error ("Permission denied".data)⟩).1
    ("Permission denied".data) rfl

/-- C6: the timestamp resolver tries each configured pattern in catalog order
and the first successful `strptime` wins; if every configured pattern fails it
falls back to the permissive parser and returns its result on success (with no
warning in either case). -/
theorem C6_timestamp_resolution_order (c : Catalog) (ts : Line) :
    (∀ (pre : List TimestampFormat) (f : TimestampFormat)
        (post : List TimestampFormat) (t : Instant),
        c.timestamp_formats = pre ++ f :: post →
        (∀ g ∈ pre, g.strptime ts = none) → f.strptime ts = some t →
        parse_timestamp c ts = (some t, [])) ∧
    (∀ t : Instant, (∀ g ∈ c.timestamp_formats, g.strptime ts = none) →
        c.dateutil_parse ts = some t → parse_timestamp c ts = (some t, [])) := by
  constructor
  · intro pre f post t hc hpre hf
    unfold parse_timestamp
    rw [hc, firstSome_first_wins (fun g : TimestampFormat => g.strptime ts) pre f post t hpre hf]
  · intro t hall hdu
    unfold parse_timestamp
    rw [firstSome_eq_none (fun f : TimestampFormat => f.strptime ts) _ hall, hdu]

/-- C6, witnessed: the demo `%Y-%m-%d %H:%M:%S` pattern is first and parses
the scenario timestamp. -/
theorem C6_timestamp_resolution_order_witness :
    parse_timestamp demoCatalog ("2024-06-15 10:00:01".data) =
      (some 20240615100001, []) :=
  (C6_timestamp_resolution_order demoCatalog ("2024-06-15 10:00:01".data)).1
    [] demoTimestampFormat [] 20240615100001 rfl
    (fun g hg => absurd hg (List.not_mem_nil g)) (by decide)

/-- C7: a NewRecord line whose captured timestamp string fails every
configured pattern and the fallback parser still yields a record: the warning
is logged, the record is buffered and flushed with its timestamp field absent,
and record assembly is never aborted by the timestamp failure. -/
theorem C7_timestamp_failure_never_aborts (c : Catalog) (line : Line)
    (caps : Captures) (ts : Line)
    (hm : firstSome (fun f => f.re_match (pyStrip line)) c.log_formats = some caps)
    (hts : caps.timestamp = some ts) (hne : ts ≠ [])
    (hall : ∀ g ∈ c.timestamp_formats, g.strptime ts = none)
    (hdu : c.dateutil_parse ts = none) :
    parse_log_line c (pyStrip line) =
      (some ⟨caps.message, none, caps.level⟩, [LogEvent.warnTimestamp ts]) ∧
    process_log_file c [line] =
      ⟨none, [⟨⟨caps.message, none, caps.level⟩, pyStrip line⟩],
        [LogEvent.warnTimestamp ts]⟩ := by
  have hpt : parse_timestamp c ts = (none, [LogEvent.warnTimestamp ts]) := by
    unfold parse_timestamp
    rw [firstSome_eq_none (fun f : TimestampFormat => f.strptime ts) _ hall, hdu]
  have hne' : ts.isEmpty = false := by
    cases ts with
    | nil => exact absurd rfl hne
    | cons a t => rfl
  have hpl : parse_log_line c (pyStrip line) =
      (some ⟨caps.message, none, caps.level⟩, [LogEvent.warnTimestamp ts]) := by
    simp [parse_log_line, hm, hts, hne', hpt]
  refine ⟨hpl, ?_⟩
  unfold process_log_file
  simp only [List.foldl]
  rw [process_line_eq, hpl]
  simp [flush, initState]

/-- C7, witnessed: a line whose timestamp capture `2024-06-15 99:99:99` fails
the (empty) pattern list and the fallback. -/
theorem C7_timestamp_failure_never_aborts_witness :
    parse_log_line ⟨[demoLineFormat], [], fun _ => none⟩
        (pyStrip ("2024-06-15 99:99:99 ERROR x".data)) =
      (some ⟨"x".data, none, some ("ERROR".data)⟩,
        [LogEvent.warnTimestamp ("2024-06-15 99:99:99".data)]) ∧
    process_log_file ⟨[demoLineFormat], [], fun _ => none⟩
        ["2024-06-15 99:99:99 ERROR x".data] =
      ⟨none,
        [⟨⟨"x".data, none, some ("ERROR".data)⟩,
          pyStrip ("2024-06-15 99:99:99 ERROR x".data)⟩],
        [LogEvent.warnTimestamp ("2024-06-15 99:99:99".data)]⟩ :=
  C7_timestamp_failure_never_aborts ⟨[demoLineFormat], [], fun _ => none⟩
    ("2024-06-15 99:99:99 ERROR x".data)
    ⟨"x".data, some ("2024-06-15 99:99:99".data), some ("ERROR".data)⟩
    ("2024-06-15 99:99:99".data)
    (by decide) rfl (by decide)
    (fun g hg => absurd hg (List.not_mem_nil g)) rfl

/-- One line's effect on the sink-handoff count: a whitespace-only line adds
no record (given that no pattern matches the empty string), a matching line
adds exactly one, counting the record still sitting in the buffer. -/
theorem process_line_count (c : Catalog) (st : ProcState) (l : Line)
    (hempty : firstSome (fun f => f.re_match []) c.log_formats = none)
    (hl : pyStrip l = [] ∨
        (firstSome (fun f => f.re_match (pyStrip l)) c.log_formats).isSome) :
    (process_line c st l).inserted.length
        + ((process_line c st l).buffer.toList).length
      = st.inserted.length + (st.buffer.toList).length
        + (if (pyStrip l).isEmpty then 0 else 1) := by
  rw [process_line_eq]
  cases hl with
  | inl he =>
    have hie : (pyStrip l).isEmpty = true := by rw [he]; rfl
    rw [he]
    simp [parse_log_line, hempty, hie, flush_inserted, flush_buffer]
  | inr hm =>
    obtain ⟨caps, hcaps⟩ := Option.isSome_iff_exists.mp hm
    obtain ⟨pd, w, hpw⟩ := parse_log_line_matched c (pyStrip l) caps hcaps
    have hie : (pyStrip l).isEmpty = false := by
      cases hps : pyStrip l with
      | nil =>
        rw [hps, hempty] at hcaps
        cases hcaps
      | cons a t => rfl
    rw [hpw]
    simp [flush_inserted, hie]

/-- Fold form of `process_line_count`: over a run of lines that are each
whitespace-only or matching, inserted-plus-buffered grows by exactly the
number of non-empty lines. -/
theorem process_lines_count (c : Catalog)
    (hempty : firstSome (fun f => f.re_match []) c.log_formats = none) :
    ∀ (lines : List Line) (st : ProcState),
      (∀ l ∈ lines, pyStrip l = [] ∨
          (firstSome (fun f => f.re_match (pyStrip l)) c.log_formats).isSome) →
      (lines.foldl (process_line c) st).inserted.length
          + (((lines.foldl (process_line c) st).buffer.toList)).length
        = st.inserted.length + (st.buffer.toList).length
          + lines.countP (fun l => !(pyStrip l).isEmpty) := by
  intro lines
  induction lines with
  | nil =>
    intro st _
    simp
  | cons l ls ih =>
    intro st h
    have hl := h l (List.mem_cons_self l ls)
    have hls := fun x hx => h x (List.mem_cons_of_mem l hx)
    have hstep := process_line_count c st l hempty hl
    simp only [List.foldl_cons, List.countP_cons]
    rw [ih (process_line c st l) hls, hstep]
    cases hie : (pyStrip l).isEmpty
    all_goals simp [hie]
    all_goals omega

/-- C8 counterexample: with a legal catalog entry whose regex
(`(?P<message>.*)`) matches every line including the empty one, a file of one
whitespace-only line produces one record although it has zero non-empty
lines — whitespace-only lines are stripped to the empty string and still run
through pattern matching. -/
theorem C8_counterexample :
    (process_log_file ⟨[anyLineFormat], [], fun _ => none⟩
        ["   ".data]).inserted.length = 1 ∧
    (["   ".data] : List Line).countP (fun l => !(pyStrip l).isEmpty) = 0 := by
  decide

/-- C8 amended: for a file whose every line matches a configured pattern or
is whitespace-only, with no configured pattern matching the empty string, the
number of records handed to the sink equals the number of non-empty lines. -/
theorem C8_record_count (c : Catalog) (lines : List Line)
    (hempty : firstSome (fun f => f.re_match []) c.log_formats = none)
    (hall : ∀ l ∈ lines, pyStrip l = [] ∨
        (firstSome (fun f => f.re_match (pyStrip l)) c.log_formats).isSome) :
    (process_log_file c lines).inserted.length
      = lines.countP (fun l => !(pyStrip l).isEmpty) := by
  have h := process_lines_count c hempty lines initState hall
  unfold process_log_file
  rw [flush_inserted, List.length_append]
  simpa [initState] using h

/-- C8 amended theorem, witnessed on a two-record file with an interspersed
empty line. -/
theorem C8_record_count_witness :
    (process_log_file demoCatalog
        ["2024-06-15 10:00:01 ERROR a".data, "".data,
         "2024-06-15 10:00:02 INFO b".data]).inserted.length = 2 :=
  C8_record_count demoCatalog
    ["2024-06-15 10:00:01 ERROR a".data, "".data,
     "2024-06-15 10:00:02 INFO b".data]
    (by decide) (by decide)

/-- With the source's never-throwing counter sink, the exception-aware loop
body coincides with the pure one. -/
theorem process_line_x_okSink (c : Catalog) (st : ProcState) (l : Line) :
    process_line_x c okSink st l = Except.ok (process_line c st l) := by
  unfold process_line_x process_line
  simp only [is_continuation_eq_false, Bool.not_false, if_true]
  have hfl : flush_x okSink st = Except.ok (flush st) := by
    unfold flush_x flush okSink
    cases st.buffer <;> rfl
  rw [hfl]
  rcases parse_log_line c (pyStrip l) with ⟨o, w⟩
  cases o <;> rfl

/-- With the counter sink, one whole file's exception-aware processing is the
pure processing, and never errors. -/
theorem process_log_file_x_okSink (c : Catalog) (lines : List Line) :
    process_log_file_x c okSink (Except.ok lines) =
      Except.ok (process_log_file c lines) := by
  have hloop : ∀ (ls : List Line) (st : ProcState),
      process_lines_x c okSink st ls = Except.ok (ls.foldl (process_line c) st) := by
    intro ls
    induction ls with
    | nil => intro st; rfl
    | cons l ls ih =>
      intro st
      unfold process_lines_x
      rw [process_line_x_okSink]
      exact ih _
  unfold process_log_file_x process_log_file
  simp only [hloop]
  unfold flush_x flush okSink
  cases (lines.foldl (process_line c) initState).buffer <;> rfl

/-- C9: the pipeline pass processes exactly the regular files of the snapshot
listing of the unprocessed directory taken when iteration starts: the names
delegated to the per-file boundary are precisely the names of the snapshot's
regular files, so a file absent from the snapshot (e.g. added after the
listing began) is not processed in the same pass. -/
theorem C9_snapshot_iteration (c : Catalog)
    (sink : ParsedRecord → Except Line Unit) (snapshot : List Entry) :
    (process_all_logs c sink snapshot).map Prod.fst
        = (snapshot.filter (fun e => e.is_reg)).map (fun e => e.name) ∧
    (∀ n, n ∈ (process_all_logs c sink snapshot).map Prod.fst →
        n ∈ snapshot.map (fun e => e.name)) := by
  have h1 : (process_all_logs c sink snapshot).map Prod.fst
      = (snapshot.filter (fun e => e.is_reg)).map (fun e => e.name) := by
    simp only [process_all_logs, List.map_map]
    rfl
  refine ⟨h1, ?_⟩
  intro n hn
  rw [h1] at hn
  obtain ⟨e, he, hname⟩ := List.mem_map.mp hn
  exact List.mem_map.mpr ⟨e, List.mem_of_mem_filter he, hname⟩

/-- C9, witnessed: a two-entry snapshot with one regular file and one
non-file entry. -/
theorem C9_snapshot_iteration_witness :
    ("a.log".data : Line) ∈
      (List.map (fun e => e.name)
        ([⟨⟨"a.log".data, Except.ok []⟩, true⟩,
          ⟨⟨"notes".data, Except.ok []⟩, false⟩] : List Entry)) :=
  (C9_snapshot_iteration demoCatalog okSink
      [⟨⟨"a.log".data, Except.ok []⟩, true⟩,
       ⟨⟨"notes".data, Except.ok []⟩, false⟩]).2
    ("a.log".data) (by decide)

/-- Any property satisfied by every record of the form "parsed data plus the
stripped line as `raw_line`" is an invariant of the line loop: records enter
the state only through the buffer, with `raw_line := pyStrip l`. -/
theorem process_fold_records (c : Catalog) (P : ParsedRecord → Prop)
    (lines : List Line) :
    ∀ (st : ProcState),
      (∀ r ∈ st.inserted, P r) → (∀ b, st.buffer = some b → P b) →
      (∀ l ∈ lines, ∀ pd : ParsedData, P ⟨pd, pyStrip l⟩) →
      (∀ r ∈ (lines.foldl (process_line c) st).inserted, P r) ∧
      (∀ b, (lines.foldl (process_line c) st).buffer = some b → P b) := by
  induction lines with
  | nil =>
    intro st hi hb _
    exact ⟨hi, hb⟩
  | cons l ls ih =>
    intro st hi hb hnew
    have hflush_i : ∀ r ∈ (flush st).inserted, P r := by
      rw [flush_inserted]
      intro r hr
      rcases List.mem_append.mp hr with h1 | h2
      · exact hi r h1
      · cases hst : st.buffer with
        | none =>
          rw [hst] at h2
          simp at h2
        | some b =>
          rw [hst] at h2
          simp at h2
          rw [h2]
          exact hb b hst
    have key : (∀ r ∈ (process_line c st l).inserted, P r) ∧
        (∀ b, (process_line c st l).buffer = some b → P b) := by
      rw [process_line_eq]
      rcases hp : parse_log_line c (pyStrip l) with ⟨o, w⟩
      cases o with
      | some pd =>
        simp only [hp]
        refine ⟨hflush_i, ?_⟩
        intro b hbuf
        simp at hbuf
        rw [← hbuf]
        exact hnew l (List.mem_cons_self l ls) pd
      | none =>
        simp only [hp]
        exact ⟨hflush_i, by simp [flush_buffer]⟩
    simp only [List.foldl_cons]
    exact ih (process_line c st l) key.1 key.2
      (fun x hx pd => hnew x (List.mem_cons_of_mem l hx) pd)

/-- C10: every record handed to the sink carries in `raw_line` the stripped
form of some input line (leading and trailing whitespace, including the
newline, removed) rather than a physical line; concretely, the physical line
ending in a newline yields a record whose `raw_line` lacks it. -/
theorem C10_raw_line_is_stripped (c : Catalog) (lines : List Line) :
    (∀ r ∈ (process_log_file c lines).inserted,
        ∃ l ∈ lines, r.raw_line = pyStrip l) ∧
    ((process_log_file demoCatalog
        ["2024-06-15 10:00:01 ERROR Failed\n".data]).inserted.map
          (fun r => r.raw_line)
      = ["2024-06-15 10:00:01 ERROR Failed".data]) ∧
    ("2024-06-15 10:00:01 ERROR Failed\n".data : Line) ≠
      ("2024-06-15 10:00:01 ERROR Failed".data : Line) := by
  refine ⟨?_, by decide, by decide⟩
  intro r hr
  unfold process_log_file at hr
  rw [flush_inserted] at hr
  have h := process_fold_records c
      (fun r => ∃ l ∈ lines, r.raw_line = pyStrip l) lines initState
      (by intro r hr; exact absurd hr (List.not_mem_nil r))
      (by intro b hbuf; cases hbuf)
      (fun l hl pd => ⟨l, hl, rfl⟩)
  rcases List.mem_append.mp hr with h1 | h2
  · exact h.1 r h1
  · cases hbuf : (lines.foldl (process_line c) initState).buffer with
    | none =>
      rw [hbuf] at h2
      simp at h2
    | some b =>
      rw [hbuf] at h2
      simp at h2
      rw [h2]
      exact h.2 b hbuf

/-- C10, witnessed: the record produced from the newline-terminated scenario
line has the stripped line as its `raw_line`. -/
theorem C10_raw_line_is_stripped_witness :
    ∃ l ∈ (["2024-06-15 10:00:01 ERROR Failed\n".data] : List Line),
      (⟨⟨"Failed".data, some 20240615100001, some ("ERROR".data)⟩,
        "2024-06-15 10:00:01 ERROR Failed".data⟩ : ParsedRecord).raw_line
        = pyStrip l :=
  (C10_raw_line_is_stripped demoCatalog
      ["2024-06-15 10:00:01 ERROR Failed\n".data]).1
    ⟨⟨"Failed".data, some 20240615100001, some ("ERROR".data)⟩,
      "2024-06-15 10:00:01 ERROR Failed".data⟩ (by decide)

end LoggingTools
